import Mathlib

/-!
Verification of the AllSensors DLV digital pressure sensor driver
(`src/AllSensors_DLV.h`, `src/AllSensors_DLV.cpp`).

Modelling choices:
* Bytes and raw codes are `Nat`; byte-range hypotheses (`< 256`) are explicit.
* The C++ `float` computations are modelled with exact rational arithmetic
  (`ℚ`); every decimal literal of the source is an exactly-representable
  rational, so the formulas are stated and proved exactly.
* C++ enums backed by character codes (`SensorType`, `PressureUnit`,
  `TemperatureUnit`) keep their underlying numeric values where out-of-range
  values matter (the unit selectors, whose `switch` has a `default` branch);
  `SensorType` is a closed inductive since the constructor only ever receives
  the three named values.
* The I2C bus is modelled by passing the 4-byte frame that the bus read
  delivers directly to `readData`.
* The C++ constructor leaves `status`, `pressure` and `temperature`
  uninitialised; the model takes their indeterminate initial contents as
  extra arguments.
-/

namespace AllSensorsDLV

/-- Source: `enum SensorType { GAGE = 'G', DIFFERENTIAL = 'D', ABSOLUTE = 'A' }`. -/
inductive SensorType
  | GAGE
  | DIFFERENTIAL
  | ABSOLUTE
deriving DecidableEq, Repr

/-- Source `enum Status`: CURRENT = 0. -/
def Status.CURRENT : Nat := 0

/-- Source `enum Status`: RESERVED = 1. -/
def Status.RESERVED : Nat := 1

/-- Source `enum Status`: STALE_DATA = 2. -/
def Status.STALE_DATA : Nat := 2

/-- Source `enum Status`: ERROR = 3. -/
def Status.ERROR : Nat := 3

/-- Source `enum PressureUnit`: PSI = 'L' = 76. -/
def PressureUnit.PSI : Nat := 76

/-- Source `enum PressureUnit`: IN_H2O = 'H' = 72. -/
def PressureUnit.IN_H2O : Nat := 72

/-- Source `enum PressureUnit`: PASCAL = 'P' = 80. -/
def PressureUnit.PASCAL : Nat := 80

/-- Source `enum TemperatureUnit`: CELCIUS = 'C' = 67 (spelling from the source). -/
def TemperatureUnit.CELCIUS : Nat := 67

/-- Source `enum TemperatureUnit`: FAHRENHEIT = 'F' = 70. -/
def TemperatureUnit.FAHRENHEIT : Nat := 70

/-- Source `enum TemperatureUnit`: KELVIN = 'K' = 75. -/
def TemperatureUnit.KELVIN : Nat := 75

/-- Source: `static constexpr uint16_t FULL_SCALE_REF = (uint16_t) 1 << 14;` -/
def FULL_SCALE_REF : Nat := 1 <<< 14

/-- The 4-byte buffer `uint8_t raw_data[4]`. -/
structure RawFrame where
  b0 : Nat
  b1 : Nat
  b2 : Nat
  b3 : Nat
deriving DecidableEq, Repr

/-- Each entry of the buffer is a byte. -/
def RawFrame.isByte (f : RawFrame) : Prop :=
  f.b0 < 256 ∧ f.b1 < 256 ∧ f.b2 < 256 ∧ f.b3 < 256

instance (f : RawFrame) : Decidable f.isByte := by
  unfold RawFrame.isByte; infer_instance

/-- The state of a `class AllSensors_DLV` object (the `TwoWire *bus` handle
is external I/O and is modelled by passing frames to `readData`). -/
structure AllSensors_DLV where
  type : SensorType
  raw_data : RawFrame
  raw_p : Nat
  raw_t : Nat
  pressure_max : ℚ
  pressure_range : ℚ
  pressure_zero_ref : ℚ
  pressure_unit : Nat
  temperature_unit : Nat
  status : Nat
  pressure : ℚ
  temperature : ℚ
deriving DecidableEq, Repr

/-- Source: `Status extractStatus() { return (Status)((raw_data[0] & 0b11000000) >> 6); }` -/
def extractStatus (raw_data : RawFrame) : Nat :=
  (raw_data.b0 &&& 0b11000000) >>> 6

/-- Source: `uint16_t extractIntegerPressure() { return ((uint16_t)(raw_data[0] & 0b00111111) << 8) | (uint16_t)(raw_data[1]); }` -/
def extractIntegerPressure (raw_data : RawFrame) : Nat :=
  ((raw_data.b0 &&& 0b00111111) <<< 8) ||| raw_data.b1

/-- Source: `uint16_t extractIntegerTemperature() { return ((uint16_t)(raw_data[2]) << 3) | ((uint16_t)(raw_data[3] & 0b11100000) >> 5); }` -/
def extractIntegerTemperature (raw_data : RawFrame) : Nat :=
  (raw_data.b2 <<< 3) ||| ((raw_data.b3 &&& 0b11100000) >>> 5)

/-- Source: `float transferPressure(unsigned long raw_value) { return 1.25 * (((float)raw_value - pressure_zero_ref) / FULL_SCALE_REF) * pressure_range; }` -/
def transferPressure (s : AllSensors_DLV) (raw_value : Nat) : ℚ :=
  1.25 * (((raw_value : ℚ) - s.pressure_zero_ref) / (FULL_SCALE_REF : ℚ)) * s.pressure_range

/-- Source: `float transferTemperature(unsigned long raw_value) { return (float)raw_value * (200.0 / 2047.0) - 50.0; }` -/
def transferTemperature (raw_value : Nat) : ℚ :=
  (raw_value : ℚ) * (200.0 / 2047.0) - 50.0

/-- Source: `float convertPressure(float psi)`: `switch(pressure_unit)` with cases
PASCAL, IN_H2O and PSI/default. -/
def convertPressure (pressure_unit : Nat) (psi : ℚ) : ℚ :=
  if pressure_unit = PressureUnit.PASCAL then psi * 6894.75729
  else if pressure_unit = PressureUnit.IN_H2O then psi * 27.679904
  else psi

/-- Source: `float convertTemperature(float degree_c)`: `switch(temperature_unit)` with
cases FAHRENHEIT, KELVIN and CELCIUS/default. -/
def convertTemperature (temperature_unit : Nat) (degree_c : ℚ) : ℚ :=
  if temperature_unit = TemperatureUnit.FAHRENHEIT then degree_c * 1.8 + 32.0
  else if temperature_unit = TemperatureUnit.KELVIN then degree_c + 273.15
  else degree_c

/-- The constructor `AllSensors_DLV::AllSensors_DLV(TwoWire *bus, SensorType
type, float pressure_max)`.  The C++ object leaves the public fields
`status`, `pressure`, `temperature` uninitialised, so their indeterminate
initial contents are passed in as `status0`, `pressure0`, `temperature0`. -/
def construct (type : SensorType) (pressure_max : ℚ)
    (status0 : Nat) (pressure0 temperature0 : ℚ) : AllSensors_DLV :=
  { type := type
    raw_data := ⟨0, 0, 0, 0⟩
    raw_p := 0
    raw_t := 0
    pressure_max := pressure_max
    pressure_zero_ref :=
      match type with
      | .GAGE => 1638
      | .ABSOLUTE => 1638
      | .DIFFERENTIAL => 8192
    pressure_range :=
      match type with
      | .GAGE => pressure_max
      | .ABSOLUTE => pressure_max
      | .DIFFERENTIAL => pressure_max * 2
    pressure_unit := PressureUnit.PSI
    temperature_unit := TemperatureUnit.CELCIUS
    status := status0
    pressure := pressure0
    temperature := temperature0 }

/-- Source: `void setPressureUnit(PressureUnit pressure_unit)`. -/
def setPressureUnit (s : AllSensors_DLV) (pressure_unit : Nat) : AllSensors_DLV :=
  { s with pressure_unit := pressure_unit }

/-- Source: `void setTemperatureUnit(TemperatureUnit temperature_unit)`. -/
def setTemperatureUnit (s : AllSensors_DLV) (temperature_unit : Nat) : AllSensors_DLV :=
  { s with temperature_unit := temperature_unit }

/-- Source: `bool AllSensors_DLV::readData()`.  The bus transaction
(`requestFrom` / four `read()` calls / `endTransmission`) is modelled by the
`frame` argument holding the four bytes read.  Returns the updated object
and the `bool` result `status == Status::ERROR`. -/
def readData (s : AllSensors_DLV) (frame : RawFrame) : AllSensors_DLV × Bool :=
  let s1 := { s with raw_data := frame }
  let s2 := { s1 with
    status := extractStatus s1.raw_data
    raw_p := extractIntegerPressure s1.raw_data
    raw_t := extractIntegerTemperature s1.raw_data }
  let s3 := { s2 with
    pressure := convertPressure s2.pressure_unit (transferPressure s2 s2.raw_p)
    temperature := convertTemperature s2.temperature_unit (transferTemperature s2.raw_t) }
  (s3, s3.status == Status.ERROR)

end AllSensorsDLV

namespace AllSensorsDLV

set_option maxRecDepth 8192 in
/-- For a byte, masking the top two bits then shifting right by 6 equals
shifting right by 6 then masking with `0b11`. -/
lemma status_bits_eq (b0 : Nat) (h : b0 < 256) :
    (b0 &&& 0b11000000) >>> 6 = (b0 >>> 6) &&& 0b11 := by
  have H : ∀ x : Fin 256, ((x.val &&& 0b11000000) >>> 6 = (x.val >>> 6) &&& 0b11) := by
    decide
  exact H ⟨b0, h⟩

/-- The full-scale reference constant evaluates to `2^14 = 16384`. -/
lemma FULL_SCALE_REF_eq : FULL_SCALE_REF = 16384 := rfl

/-- C1: for every sensor configuration and pressure code in `[0, 16383]`,
`transferPressure` returns exactly
`1.25 * ((pressureCode - zeroReferenceCode) / 16384) * fullScaleSpan`;
for GAGE/ABSOLUTE the zero reference is 1638 and the span is the rating `R`,
for DIFFERENTIAL they are 8192 and `2 * R`; and a DIFFERENTIAL sensor at
code 8192 yields 0 PSI. -/
theorem C1_transferPressure (T : SensorType) (R : ℚ) (st0 : Nat) (p0 t0 : ℚ)
    (pressureCode : Nat) (h : pressureCode ≤ 16383) :
    transferPressure (construct T R st0 p0 t0) pressureCode =
      1.25 * (((pressureCode : ℚ) - (construct T R st0 p0 t0).pressure_zero_ref) / 16384) *
        (construct T R st0 p0 t0).pressure_range
    ∧ transferPressure (construct T R st0 p0 t0) pressureCode =
      1.25 * (((pressureCode : ℚ) -
          (match T with | .DIFFERENTIAL => (8192 : ℚ) | _ => 1638)) / 16384) *
        (match T with | .DIFFERENTIAL => 2 * R | _ => R)
    ∧ transferPressure (construct .DIFFERENTIAL R st0 p0 t0) 8192 = 0 := by
  cases T <;>
    refine ⟨rfl, ?_, ?_⟩ <;>
      simp only [transferPressure, construct, FULL_SCALE_REF_eq, Nat.cast_ofNat] <;> ring

/-- C1 witness: a DIFFERENTIAL sensor rated 5 PSI at code 8192 reads 0 PSI. -/
theorem C1_transferPressure_witness :
    8192 ≤ 16383 ∧ transferPressure (construct .DIFFERENTIAL 5 0 0 0) 8192 = 0 :=
  ⟨by decide, (C1_transferPressure .DIFFERENTIAL 5 0 0 0 8192 (by decide)).2.2⟩

/-- C2: for every 4-byte frame, the decoder extracts
`statusCode = (byte0 >> 6) & 0b11`,
`pressureCode = ((byte0 & 0b00111111) << 8) | byte1` and
`temperatureCode = (byte2 << 3) | ((byte3 & 0b11100000) >> 5)`; the frame
`[0xC0, 0x00, 0x00, 0x00]` decodes to `(3, 0, 0)` and the frame
`[0x3F, 0xFF, 0xFF, 0xE0]` decodes to `(0, 16383, 2047)`. -/
theorem C2_decoder (f : RawFrame) (h : f.isByte) :
    extractStatus f = (f.b0 >>> 6) &&& 0b11
    ∧ extractIntegerPressure f = ((f.b0 &&& 0b00111111) <<< 8) ||| f.b1
    ∧ extractIntegerTemperature f = (f.b2 <<< 3) ||| ((f.b3 &&& 0b11100000) >>> 5)
    ∧ (extractStatus ⟨0xC0, 0x00, 0x00, 0x00⟩ = 3
        ∧ extractIntegerPressure ⟨0xC0, 0x00, 0x00, 0x00⟩ = 0
        ∧ extractIntegerTemperature ⟨0xC0, 0x00, 0x00, 0x00⟩ = 0)
    ∧ (extractStatus ⟨0x3F, 0xFF, 0xFF, 0xE0⟩ = 0
        ∧ extractIntegerPressure ⟨0x3F, 0xFF, 0xFF, 0xE0⟩ = 16383
        ∧ extractIntegerTemperature ⟨0x3F, 0xFF, 0xFF, 0xE0⟩ = 2047) :=
  ⟨status_bits_eq f.b0 h.1, rfl, rfl, by decide, by decide⟩

/-- C2 witness: the decoder equations at the all-ones error frame. -/
theorem C2_decoder_witness :
    (RawFrame.isByte ⟨0xC0, 0x00, 0x00, 0x00⟩)
    ∧ extractStatus ⟨0xC0, 0x00, 0x00, 0x00⟩ = ((0xC0 >>> 6) &&& 0b11) :=
  ⟨by decide, (C2_decoder ⟨0xC0, 0x00, 0x00, 0x00⟩ (by decide)).1⟩

/-- C3: for every temperature code in `[0, 2047]`, `transferTemperature`
returns `temperatureCode * (200.0 / 2047.0) - 50.0` degrees Celsius; at code
0 it returns `-50.0` and at code 2047 it returns `150.0` (exactly, in the
rational model). -/
theorem C3_transferTemperature (temperatureCode : Nat) (h : temperatureCode ≤ 2047) :
    transferTemperature temperatureCode = (temperatureCode : ℚ) * (200.0 / 2047.0) - 50.0
    ∧ transferTemperature 0 = -50.0
    ∧ transferTemperature 2047 = 150.0 :=
  ⟨rfl, by norm_num [transferTemperature], by norm_num [transferTemperature]⟩

/-- C3 witness: the temperature transfer function at the top code 2047. -/
theorem C3_transferTemperature_witness :
    2047 ≤ 2047 ∧ transferTemperature 2047 = 150.0 :=
  ⟨by decide, (C3_transferTemperature 2047 (by decide)).2.2⟩

/-- C4: `readData` reports failure (returns `true`) if and only if the
decoded status equals ERROR (code 3), for every stored state and every
frame; frames decoding to CURRENT, RESERVED or STALE_DATA all report
success (return `false`). -/
theorem C4_readData_error_iff (s : AllSensors_DLV) (frame : RawFrame) :
    ((readData s frame).2 = true ↔ extractStatus frame = Status.ERROR)
    ∧ ((extractStatus frame = Status.CURRENT ∨ extractStatus frame = Status.RESERVED ∨
        extractStatus frame = Status.STALE_DATA) → (readData s frame).2 = false) := by
  constructor
  · simp [readData, Status.ERROR]
  · rintro (h1 | h1 | h1) <;>
      simp [readData, h1, Status.CURRENT, Status.RESERVED, Status.STALE_DATA, Status.ERROR]

/-- C4 witness: a STALE_DATA frame (status code 2) reports success. -/
theorem C4_readData_error_iff_witness :
    extractStatus ⟨0x80, 0x00, 0x00, 0x00⟩ = Status.STALE_DATA
    ∧ (readData (construct .GAGE 5 0 0 0) ⟨0x80, 0x00, 0x00, 0x00⟩).2 = false :=
  ⟨by decide,
    (C4_readData_error_iff (construct .GAGE 5 0 0 0) ⟨0x80, 0x00, 0x00, 0x00⟩).2
      (Or.inr (Or.inr (by decide)))⟩

/-- C5: construction derives `pressure_zero_ref = 1638` and
`pressure_range = R` for GAGE/ABSOLUTE, and `pressure_zero_ref = 8192` and
`pressure_range = 2 * R` for DIFFERENTIAL; and both fields are left
unchanged by `readData`, `setPressureUnit` and `setTemperatureUnit` on any
state. -/
theorem C5_derived_constants (T : SensorType) (R : ℚ) (st0 : Nat) (p0 t0 : ℚ) :
    (construct T R st0 p0 t0).pressure_zero_ref =
        (match T with | .DIFFERENTIAL => (8192 : ℚ) | _ => 1638)
    ∧ (construct T R st0 p0 t0).pressure_range =
        (match T with | .DIFFERENTIAL => 2 * R | _ => R)
    ∧ (∀ (s : AllSensors_DLV) (frame : RawFrame),
        (readData s frame).1.pressure_zero_ref = s.pressure_zero_ref ∧
        (readData s frame).1.pressure_range = s.pressure_range)
    ∧ (∀ (s : AllSensors_DLV) (u : Nat),
        (setPressureUnit s u).pressure_zero_ref = s.pressure_zero_ref ∧
        (setPressureUnit s u).pressure_range = s.pressure_range)
    ∧ (∀ (s : AllSensors_DLV) (u : Nat),
        (setTemperatureUnit s u).pressure_zero_ref = s.pressure_zero_ref ∧
        (setTemperatureUnit s u).pressure_range = s.pressure_range) := by
  refine ⟨?_, ?_, fun s frame => ⟨rfl, rfl⟩, fun s u => ⟨rfl, rfl⟩, fun s u => ⟨rfl, rfl⟩⟩ <;>
    cases T <;> simp [construct, mul_comm]

/-- C6: the pressure converter is the identity for PSI, multiplies by
27.679904 for IN_H2O and by 6894.75729 for PASCAL; the temperature
converter is the identity for CELSIUS, maps `c` to `c * 1.8 + 32.0` for
FAHRENHEIT and to `c + 273.15` for KELVIN. -/
theorem C6_unit_converters (x : ℚ) :
    convertPressure PressureUnit.PSI x = x
    ∧ convertPressure PressureUnit.IN_H2O x = x * 27.679904
    ∧ convertPressure PressureUnit.PASCAL x = x * 6894.75729
    ∧ convertTemperature TemperatureUnit.CELCIUS x = x
    ∧ convertTemperature TemperatureUnit.FAHRENHEIT x = x * 1.8 + 32.0
    ∧ convertTemperature TemperatureUnit.KELVIN x = x + 273.15 :=
  ⟨rfl, rfl, rfl, rfl, rfl, rfl⟩

/-- C7: for every unit selector outside the enumerated set, both converters
return the input unchanged (identity fallback of the `default` branch). -/
theorem C7_unknown_unit_identity (x : ℚ) (pu tu : Nat)
    (hpu : pu ≠ PressureUnit.PSI ∧ pu ≠ PressureUnit.IN_H2O ∧ pu ≠ PressureUnit.PASCAL)
    (htu : tu ≠ TemperatureUnit.CELCIUS ∧ tu ≠ TemperatureUnit.FAHRENHEIT ∧
      tu ≠ TemperatureUnit.KELVIN) :
    convertPressure pu x = x ∧ convertTemperature tu x = x :=
  ⟨by simp [convertPressure, hpu.2.1, hpu.2.2],
   by simp [convertTemperature, htu.2.1, htu.2.2]⟩

/-- C7 witness: the unit selector 0 is outside both enumerated sets and both
converters leave the value 42 unchanged. -/
theorem C7_unknown_unit_identity_witness :
    ((0 : Nat) ≠ PressureUnit.PSI ∧ (0 : Nat) ≠ PressureUnit.IN_H2O ∧
      (0 : Nat) ≠ PressureUnit.PASCAL)
    ∧ ((0 : Nat) ≠ TemperatureUnit.CELCIUS ∧ (0 : Nat) ≠ TemperatureUnit.FAHRENHEIT ∧
      (0 : Nat) ≠ TemperatureUnit.KELVIN)
    ∧ (convertPressure 0 42 = 42 ∧ convertTemperature 0 42 = 42) :=
  ⟨by decide, by decide,
   C7_unknown_unit_identity 42 0 0 (by decide) (by decide)⟩

/-- C8: the decoder is total (it is a function on all frames) and on every
4-byte frame the extracted fields are in range: status below 4, pressure
code below 16384, temperature code below 2048. -/
theorem C8_decoder_total (f : RawFrame) (h : f.isByte) :
    extractStatus f < 4 ∧ extractIntegerPressure f < 16384 ∧
      extractIntegerTemperature f < 2048 := by
  obtain ⟨h0, h1, h2, h3⟩ := h
  refine ⟨?_, ?_, ?_⟩
  · have hm : f.b0 &&& 0b11000000 ≤ 192 := Nat.and_le_right
    calc extractStatus f = (f.b0 &&& 0b11000000) / 2 ^ 6 := Nat.shiftRight_eq_div_pow _ _
      _ ≤ 192 / 2 ^ 6 := Nat.div_le_div_right hm
      _ < 4 := by norm_num
  · have hx : (f.b0 &&& 0b00111111) <<< 8 < 2 ^ 14 := by
      rw [Nat.shiftLeft_eq]
      calc (f.b0 &&& 0b00111111) * 2 ^ 8 ≤ 63 * 2 ^ 8 :=
            Nat.mul_le_mul_right _ Nat.and_le_right
        _ < 2 ^ 14 := by norm_num
    have hy : f.b1 < 2 ^ 14 := lt_trans h1 (by norm_num)
    exact lt_of_lt_of_eq (Nat.or_lt_two_pow hx hy) (by norm_num)
  · have hx : f.b2 <<< 3 < 2 ^ 11 := by
      rw [Nat.shiftLeft_eq]
      calc f.b2 * 2 ^ 3 ≤ 255 * 2 ^ 3 :=
            Nat.mul_le_mul_right _ (Nat.lt_succ_iff.mp h2)
        _ < 2 ^ 11 := by norm_num
    have hy : (f.b3 &&& 0b11100000) >>> 5 < 2 ^ 11 := by
      rw [Nat.shiftRight_eq_div_pow]
      calc (f.b3 &&& 0b11100000) / 2 ^ 5 ≤ 224 / 2 ^ 5 :=
            Nat.div_le_div_right Nat.and_le_right
        _ < 2 ^ 11 := by norm_num
    exact lt_of_lt_of_eq (Nat.or_lt_two_pow hx hy) (by norm_num)

/-- C8 witness: the all-ones frame decodes in range. -/
theorem C8_decoder_total_witness :
    RawFrame.isByte ⟨0xFF, 0xFF, 0xFF, 0xFF⟩
    ∧ (extractStatus ⟨0xFF, 0xFF, 0xFF, 0xFF⟩ < 4
        ∧ extractIntegerPressure ⟨0xFF, 0xFF, 0xFF, 0xFF⟩ < 16384
        ∧ extractIntegerTemperature ⟨0xFF, 0xFF, 0xFF, 0xFF⟩ < 2048) :=
  ⟨by decide, C8_decoder_total ⟨0xFF, 0xFF, 0xFF, 0xFF⟩ (by decide)⟩

/-- C9: a freshly constructed sensor has `pressure_unit = PSI` and
`temperature_unit = CELCIUS`, so before any setter call both converters
used by acquisition are the identity. -/
theorem C9_default_units (T : SensorType) (R : ℚ) (st0 : Nat) (p0 t0 psi c : ℚ) :
    (construct T R st0 p0 t0).pressure_unit = PressureUnit.PSI
    ∧ (construct T R st0 p0 t0).temperature_unit = TemperatureUnit.CELCIUS
    ∧ convertPressure (construct T R st0 p0 t0).pressure_unit psi = psi
    ∧ convertTemperature (construct T R st0 p0 t0).temperature_unit c = c :=
  ⟨rfl, rfl, rfl, rfl⟩

/-- C10: `readData` unconditionally overwrites the stored status, pressure
and temperature with values decoded and converted from the frame — they are
determined by the frame and the configuration alone, regardless of the
previously stored reading and of the decoded status (ERROR and STALE_DATA
included): no atomicity on error. -/
theorem C10_readData_overwrites (s : AllSensors_DLV) (frame : RawFrame) :
    (readData s frame).1.status = extractStatus frame
    ∧ (readData s frame).1.pressure =
        convertPressure s.pressure_unit (transferPressure s (extractIntegerPressure frame))
    ∧ (readData s frame).1.temperature =
        convertTemperature s.temperature_unit
          (transferTemperature (extractIntegerTemperature frame))
    ∧ (readData s frame).1.raw_data = frame :=
  ⟨rfl, rfl, rfl, rfl⟩

end AllSensorsDLV
